import Mathlib

/-!
Shallow embedding of the XYZ Gym management system (CS_359 repository).

The repository has three Python source files:
* `Part 3/file.py` — a command-line report dispatcher over the SQLite store;
* `Part 4/file.py` — the data-access layer (CRUD repositories over the store);
* `Part 4/gui.py`  — the PySimpleGUI presentation layer calling into `file.py`.

The SQLite store is modelled as an explicit `DB` record of table contents
together with the next surrogate rowid per table.  Store-level failures of a
write statement (`sqlite3.Error`) are modelled by a Boolean `ok` flag passed to
each mutating function: `ok = true` is the normal path, `ok = false` is the
exceptional path in which the Python code prints a message and returns `False`
without committing anything.  Python's dynamically typed returns
(`int` rowid on success vs the literal `False`) are modelled by `PyVal`.
-/

/-- Python runtime value returned by the insert helpers: either an `int`
(the `cursor.lastrowid`) or a `bool` (`True`/`False`). -/
inductive PyVal where
  | pyInt (n : Int)
  | pyBool (b : Bool)
deriving Repr, DecidableEq

/-- Python truthiness of a `PyVal`: an `int` is truthy iff nonzero, a `bool`
is truthy iff `True` (used for `if member_id:` / `if success:` tests). -/
def pyTruthy : PyVal → Bool
  | .pyInt n => n != 0
  | .pyBool b => b

/-- The `int` Python obtains from a `PyVal` (`True == 1`, `False == 0`). -/
def pyToInt : PyVal → Int
  | .pyInt n => n
  | .pyBool b => if b then 1 else 0

/-- Decimal digit string to `Nat` (the value `int(...)` computes); `none` when
the character list is empty or contains a non-digit. -/
def parseNatL (l : List Char) : Option Nat :=
  if l.isEmpty then none
  else if l.all Char.isDigit then
    some (l.foldl (fun acc c => acc * 10 + (c.toNat - '0'.toNat)) 0)
  else none

/-- Leading/trailing-whitespace strip on a character list (Python `str.strip`). -/
def trimL (l : List Char) : List Char :=
  ((l.dropWhile Char.isWhitespace).reverse.dropWhile Char.isWhitespace).reverse

/-- Models Python `int(s)` on a string: strips whitespace, accepts an optional
leading minus sign followed by decimal digits; `none` models a raised
`ValueError`. -/
def python_int (s : String) : Option Int :=
  match trimL s.data with
  | '-' :: rest => (parseNatL rest).map fun n => -(n : Int)
  | t => (parseNatL t).map fun n => (n : Int)

/-- A Python `float` as produced by parsing a decimal form field, kept exact:
the represented value is `mantissa / 10 ^ scale`. -/
structure PyFloat where
  mantissa : Int
  scale : Nat
deriving Repr, DecidableEq

/-- Models Python `float(s)` (on the plain `[-]digits[.digits]` grammar used
by the forms), kept exact; `none` models a raised `ValueError`. -/
def python_float (s : String) : Option PyFloat :=
  let t := trimL s.data
  let neg := decide (t.head? = some '-')
  let body := if neg then t.tail else t
  let a := body.takeWhile fun c => !decide (c = '.')
  let signed : Nat → Int := fun n => if neg then -(n : Int) else (n : Int)
  match body.dropWhile fun c => !decide (c = '.') with
  | [] => (parseNatL a).map fun n => ⟨signed n, 0⟩
  | _ :: b =>
    if b.any fun c => decide (c = '.') then none
    else if a.isEmpty && b.isEmpty then none
    else if (a.isEmpty || (parseNatL a).isSome) && (b.isEmpty || (parseNatL b).isSome) then
      some ⟨signed ((parseNatL a).getD 0 * 10 ^ b.length + (parseNatL b).getD 0), b.length⟩
    else none

/-- Strict lexicographic order on character lists by code point: the order
Python uses for `str` comparison and SQLite uses for TEXT comparison. -/
def strLtL : List Char → List Char → Bool
  | [], [] => false
  | [], _ :: _ => true
  | _ :: _, [] => false
  | a :: as, b :: bs => if a < b then true else if b < a then false else strLtL as bs

/-- Non-strict lexicographic order on character lists by code point. -/
def strLeL : List Char → List Char → Bool
  | [], _ => true
  | _ :: _, [] => false
  | a :: as, b :: bs => if a < b then true else if b < a then false else strLeL as bs

/-- Comparison `s < t` on strings as Python and SQLite compare them (lexicographic by
code point). -/
def pyStrLt (s t : String) : Bool := strLtL s.data t.data

/-- Comparison `s <= t` on strings as Python and SQLite compare them. -/
def pyStrLe (s t : String) : Bool := strLeL s.data t.data

/-- Models `gui.is_integer`: empty (after strip) input or a failed `int(...)` parse
pops an error and yields `None`; otherwise the parsed integer. -/
def is_integer (s : String) : Option Int :=
  if (trimL s.data).isEmpty then none else python_int s

/-- Models `gui.is_float`: empty (after strip) input or a failed `float(...)` parse
pops an error and yields `None`; otherwise the parsed number. -/
def is_float (s : String) : Option PyFloat :=
  if (trimL s.data).isEmpty then none else python_float s

/-- A row of the `Member` table. -/
structure MemberRow where
  memberID : Int
  name : String
  email : String
  phone : Int
  address : String
  age : Int
  membershipStartDate : String
  membershipEndDate : String
deriving Repr, DecidableEq

/-- A row of the `Payment` table. -/
structure PaymentRow where
  paymentID : Int
  memberID : Int
  planID : Int
  amountPaid : PyFloat
  paymentDate : String
deriving Repr, DecidableEq

/-- A row of the `Class` table. -/
structure ClassRow where
  classID : Int
  className : String
  classType : String
  duration : Int
  classCapacity : Int
  instructorID : Int
  gymID : Int
deriving Repr, DecidableEq

/-- A row of the `Attends` join table. -/
structure AttendsRow where
  memberID : Int
  classID : Int
  attendanceDate : String
deriving Repr, DecidableEq

/-- A row of the `Equipment` table. -/
structure EquipmentRow where
  equipmentID : Int
  name : String
  equipmentType : String
  quantity : Int
  gymID : Int
deriving Repr, DecidableEq

/-- The committed contents of the SQLite store, plus the next rowid each
table will assign (SQLite's auto-assigned surrogate keys). -/
structure DB where
  members : List MemberRow
  payments : List PaymentRow
  classes : List ClassRow
  attends : List AttendsRow
  equipment : List EquipmentRow
  instructors : List Int
  gyms : List Int
  plans : List Int
  nextMemberID : Int
  nextPaymentID : Int
  nextClassID : Int
  nextEquipmentID : Int
deriving Repr, DecidableEq

/-! ## Data-access layer (`Part 4/file.py`) -/

/-- Models `file.add_member`: INSERT INTO Member, commit, and return
`cursor.lastrowid`; on `sqlite3.Error` (`ok = false`) print a message and
return `False` with the store unchanged. -/
def add_member (db : DB) (ok : Bool) (name email : String) (phone : Int)
    (address : String) (age : Int) (membershipStartDate membershipEndDate : String) :
    DB × PyVal :=
  if ok then
    let mid := db.nextMemberID
    ({ db with
        members := db.members ++
          [⟨mid, name, email, phone, address, age,
            membershipStartDate, membershipEndDate⟩],
        nextMemberID := mid + 1 },
      PyVal.pyInt mid)
  else (db, PyVal.pyBool false)

/-- Models `file.add_payment`: INSERT INTO Payment, commit, and return `True`;
on `sqlite3.Error` print a message and return `False` with the store
unchanged.  (Unlike the other inserts it does not return the rowid.) -/
def add_payment (db : DB) (ok : Bool) (memberID planID : Int) (amountPaid : PyFloat)
    (paymentDate : String) : DB × PyVal :=
  if ok then
    let pid := db.nextPaymentID
    ({ db with
        payments := db.payments ++ [⟨pid, memberID, planID, amountPaid, paymentDate⟩],
        nextPaymentID := pid + 1 },
      PyVal.pyBool true)
  else (db, PyVal.pyBool false)

/-- Models `file.update_member`: UPDATE every Member row matching `member_id`,
commit, and return `True`; on `sqlite3.Error` return `False` with the store
unchanged. -/
def update_member (db : DB) (ok : Bool) (member_id : Int) (name email : String)
    (phone : Int) (address : String) (age : Int) (start_date end_date : String) :
    DB × Bool :=
  if ok then
    ({ db with
        members := db.members.map fun m =>
          if m.memberID = member_id then
            ⟨m.memberID, name, email, phone, address, age, start_date, end_date⟩
          else m },
      true)
  else (db, false)

/-- Models `file.member_exists`: SELECT 1 FROM Member WHERE memberID = ?, true iff a
row is returned. -/
def member_exists (db : DB) (member_id : Int) : Bool :=
  db.members.any fun m => decide (m.memberID = member_id)

/-- Models `file.delete_member`: DELETE FROM Member WHERE memberID = ?, commit, and
return `True` (without inspecting the affected row count); on `sqlite3.Error`
return `False` with the store unchanged. -/
def delete_member (db : DB) (ok : Bool) (member_id : Int) : DB × Bool :=
  if ok then
    ({ db with members := db.members.filter fun m => !decide (m.memberID = member_id) },
      true)
  else (db, false)

/-- Models `file.add_class`: INSERT INTO Class, commit, and return
`cursor.lastrowid`; on `sqlite3.Error` return `False` with the store
unchanged. -/
def add_class (db : DB) (ok : Bool) (className classType : String)
    (duration classCapacity instructorID gymID : Int) : DB × PyVal :=
  if ok then
    let cid := db.nextClassID
    ({ db with
        classes := db.classes ++
          [⟨cid, className, classType, duration, classCapacity, instructorID, gymID⟩],
        nextClassID := cid + 1 },
      PyVal.pyInt cid)
  else (db, PyVal.pyBool false)

/-- Models `file.delete_class`: DELETE FROM Class WHERE classID = ?, commit, and
return `cursor.rowcount > 0`; on `sqlite3.Error` return `False` with the
store unchanged. -/
def delete_class (db : DB) (ok : Bool) (class_id : Int) : DB × Bool :=
  if ok then
    let rowcount := db.classes.countP fun c => decide (c.classID = class_id)
    ({ db with classes := db.classes.filter fun c => !decide (c.classID = class_id) },
      decide (0 < rowcount))
  else (db, false)

/-- Models `file.class_has_members`: SELECT COUNT(*) FROM Attends WHERE classID = ?,
true iff the count is positive. -/
def class_has_members (db : DB) (class_id : Int) : Bool :=
  decide (0 < db.attends.countP fun a => decide (a.classID = class_id))

/-- Models `file.move_members`: UPDATE Attends SET classID = new WHERE classID = old,
commit, and return `cursor.rowcount > 0`; on `sqlite3.Error` return `False`
with the store unchanged.  It performs no existence check on `new_classID`. -/
def move_members (db : DB) (ok : Bool) (old_classID new_classID : Int) : DB × Bool :=
  if ok then
    let rowcount := db.attends.countP fun a => decide (a.classID = old_classID)
    ({ db with
        attends := db.attends.map fun a =>
          if a.classID = old_classID then { a with classID := new_classID } else a },
      decide (0 < rowcount))
  else (db, false)

/-- Models `file.check_email_exists`: SELECT 1 FROM Member WHERE email = ?, true iff
the result list is nonempty. -/
def check_email_exists (db : DB) (email : String) : Bool :=
  decide (0 < db.members.countP fun m => decide (m.email = email))

/-- Models `file.class_exists`: SELECT 1 FROM Class WHERE classID = ?. -/
def class_exists (db : DB) (class_id : Int) : Bool :=
  db.classes.any fun c => decide (c.classID = class_id)

/-- Models `file.membership_plan_exists`: SELECT 1 FROM MembershipPlan WHERE planId = ?. -/
def membership_plan_exists (db : DB) (plan_id : Int) : Bool :=
  db.plans.any fun p => decide (p = plan_id)

/-- Models `file.instructor_exists`: SELECT 1 FROM Instructor WHERE instructorID = ?. -/
def instructor_exists (db : DB) (instructor_id : Int) : Bool :=
  db.instructors.any fun i => decide (i = instructor_id)

/-- Models `file.gym_exists`: SELECT 1 FROM GymFacility WHERE gymID = ?. -/
def gym_exists (db : DB) (gym_id : Int) : Bool :=
  db.gyms.any fun g => decide (g = gym_id)

/-- Models `file.add_equipment`: INSERT INTO Equipment, commit, and return
`cursor.lastrowid`; on `sqlite3.Error` return `False` with the store
unchanged. -/
def add_equipment (db : DB) (ok : Bool) (equipmentName equipmentType : String)
    (quantity gymID : Int) : DB × PyVal :=
  if ok then
    let eid := db.nextEquipmentID
    ({ db with
        equipment := db.equipment ++ [⟨eid, equipmentName, equipmentType, quantity, gymID⟩],
        nextEquipmentID := eid + 1 },
      PyVal.pyInt eid)
  else (db, PyVal.pyBool false)

/-! ## Presentation layer (`Part 4/gui.py`) -/

/-- Outcome of one `Submit` pass of the Add New Member form. -/
inductive AddMemberOutcome where
  | invalidInput    -- a phone/age/plan/amount parse failed, re-prompt
  | ageTooYoung     -- "Age must be 15 or older."
  | badDateOrder    -- "End date must be later than start date."
  | duplicateEmail  -- "This email is already associated with an existing member."
  | invalidPlan     -- "Please enter a valid membership plan id."
  | missingField    -- "Please fill in all fields."
  | added           -- member and payment inserted
  | paymentFailed   -- "Member added but payment failed."
  | addFailed       -- "Failed to add member."
deriving Repr, DecidableEq

/-- Models `gui.add_new_member`, one `Submit` event: parse phone/age/plan/amount,
then check age ≥ 15, end date after start date (string comparison), email
uniqueness, plan existence and non-empty fields, in that order; only when all
checks pass call `file.add_member` and then `file.add_payment`. -/
def gui_add_member (db : DB) (okMember okPayment : Bool)
    (name email phone_s address age_s start_date end_date plan_s amount_s payment_date : String) :
    DB × AddMemberOutcome :=
  match is_integer phone_s, is_integer age_s, is_integer plan_s, is_float amount_s with
  | some phone, some age, some plan_id, some amount_paid =>
    if age < 15 then (db, .ageTooYoung)
    else if pyStrLe end_date start_date then (db, .badDateOrder)
    else if check_email_exists db email then (db, .duplicateEmail)
    else if !membership_plan_exists db plan_id then (db, .invalidPlan)
    else if !(decide (name ≠ "") && decide (email ≠ "") && decide (phone ≠ 0)
        && decide (address ≠ "") && decide (age ≠ 0) && decide (plan_id ≠ 0)
        && decide (amount_paid.mantissa ≠ 0) && decide (start_date ≠ "")
        && decide (end_date ≠ "") && decide (payment_date ≠ "")) then
      (db, .missingField)
    else
      let r1 := add_member db okMember name email phone address age start_date end_date
      if pyTruthy r1.2 then
        let r2 := add_payment r1.1 okPayment (pyToInt r1.2) plan_id amount_paid payment_date
        if pyTruthy r2.2 then (r2.1, .added) else (r2.1, .paymentFailed)
      else (r1.1, .addFailed)
  | _, _, _, _ => (db, .invalidInput)

/-- Outcome of one `Update` pass of the Update Member form. -/
inductive UpdateMemberOutcome where
  | guiError      -- exception (e.g. int() ValueError) caught by the handler
  | notFound      -- "No member found with that ID."
  | invalidInput  -- phone or age parse failed, re-prompt
  | ageTooYoung   -- "Age must be 15 or older."
  | updated       -- repository update ran and reported success
  | updateFailed  -- "Failed to update member."
deriving Repr, DecidableEq

/-- Models `gui.update_member`, one `Update` event: parse the member ID, check the
member exists, parse phone and age, check age ≥ 15, then call
`file.update_member`.  (No date-order or email-uniqueness check appears.) -/
def gui_update_member (db : DB) (ok : Bool)
    (id_s name email phone_s address age_s start_date end_date : String) :
    DB × UpdateMemberOutcome :=
  match python_int id_s with
  | none => (db, .guiError)
  | some member_id =>
    if !member_exists db member_id then (db, .notFound)
    else
      match is_integer phone_s, is_integer age_s with
      | some phone, some age =>
        if age < 15 then (db, .ageTooYoung)
        else
          let r := update_member db ok member_id name email phone address age start_date end_date
          if r.2 then (r.1, .updated) else (r.1, .updateFailed)
      | _, _ => (db, .invalidInput)

/-- Outcome of one `Delete` pass of the Delete Class form. -/
inductive DeleteClassOutcome where
  | guiError      -- exception (e.g. int() ValueError) caught by the handler
  | notFound      -- "No class found with that ID."
  | refused       -- "No valid class selected to move members to."
  | deleted       -- "Class deleted successfully!"
  | deleteFailed  -- "Failed to delete the class."
deriving Repr, DecidableEq

/-- Models `gui.delete_class`, one `Delete` event: parse the class ID and check it
exists; if the class has members, ask for a target class ID (`new_id`,
`none` models cancelling the popup) and delete only after
`file.move_members` reports moved rows; otherwise delete directly.
No existence check is performed on the target class ID. -/
def gui_delete_class (db : DB) (ok : Bool) (id_s : String) (new_id : Option String) :
    DB × DeleteClassOutcome :=
  match python_int id_s with
  | none => (db, .guiError)
  | some class_id =>
    if !class_exists db class_id then (db, .notFound)
    else if class_has_members db class_id then
      match new_id with
      | none => (db, .refused)
      | some s =>
        if s = "" then (db, .refused)
        else
          match python_int s with
          | none => (db, .guiError)
          | some new_class_id =>
            let r1 := move_members db ok class_id new_class_id
            if r1.2 then
              let r2 := delete_class r1.1 ok class_id
              if r2.2 then (r2.1, .deleted) else (r2.1, .deleteFailed)
            else (r1.1, .refused)
    else
      let r := delete_class db ok class_id
      if r.2 then (r.1, .deleted) else (r.1, .deleteFailed)

/-- Outcome of one `Submit` pass of the Add Class form, once past the
unguarded integer conversions. -/
inductive AddClassOutcome where
  | emptyName          -- "Class name cannot be empty."
  | invalidType        -- "Class type must be one of: Yoga, Zumba, HIIT, Weights."
  | invalidDuration    -- "Duration must be a positive integer."
  | invalidCapacity    -- "Class capacity must be a positive integer."
  | instructorMissing  -- "Instructor ID ... does not exist."
  | gymMissing         -- "Gym ID ... does not exist."
  | added              -- "Class added successfully!"
  | addClassFailed     -- "Failed to add class."
deriving Repr, DecidableEq

/-- Models `gui.add_class`, one `Submit` event.  The handler converts the Duration,
Capacity, Instructor ID and Gym ID fields with bare `int(...)` before any
guarded validation; a failing conversion raises `ValueError` out of the
handler, modelled as `none`.  Otherwise the guarded checks run in source
order and on success `file.add_class` is called. -/
def gui_add_class (db : DB) (ok : Bool) (name class_type dur_s cap_s iid_s gid_s : String) :
    Option (DB × AddClassOutcome) :=
  match python_int dur_s, python_int cap_s, python_int iid_s, python_int gid_s with
  | some duration, some capacity, some instructor_id, some gym_id =>
    some (
      if name = "" then (db, .emptyName)
      else if !(decide (class_type = "Yoga") || decide (class_type = "Zumba")
          || decide (class_type = "HIIT") || decide (class_type = "Weights")) then
        (db, .invalidType)
      else if duration ≤ 0 then (db, .invalidDuration)
      else if capacity ≤ 0 then (db, .invalidCapacity)
      else if !instructor_exists db instructor_id then (db, .instructorMissing)
      else if !gym_exists db gym_id then (db, .gymMissing)
      else
        let r := add_class db ok name class_type duration capacity instructor_id gym_id
        if pyTruthy r.2 then (r.1, .added) else (r.1, .addClassFailed))
  | _, _, _, _ => none

/-! ## Command-line report dispatcher (`Part 3/file.py`) -/

/-- Models `checkForInteger`: Python `inputToCheck.isdigit()` succeeds exactly on a
non-empty all-digit string, in which case `int(inputToCheck)` is returned;
otherwise the program prints an ERROR line and exits with status 1 (`none`). -/
def checkForInteger (s : String) : Option Nat := parseNatL s.data

/-- Observable outcome of one run of the Part 3 command-line program:
its exit status and whether an ERROR diagnostic was printed. -/
structure CliOutcome where
  exitCode : Nat
  printedError : Bool
deriving Repr, DecidableEq

/-- Models `main` of `Part 3/file.py` on the argument list after the program name:
a missing or non-digit first argument and a task number outside 1–10 exit
with status 1 after printing an ERROR message; tasks 6 and 9 print an ERROR
message when their second argument is missing but fall through to a normal
exit; all other paths exit normally. -/
def cli_main (argv : List String) : CliOutcome :=
  match argv with
  | [] => ⟨1, true⟩
  | a1 :: rest =>
    match checkForInteger a1 with
    | none => ⟨1, true⟩
    | some taskNumber =>
      let secondArg := rest.head?
      if taskNumber = 1 ∨ taskNumber = 2 ∨ taskNumber = 3 ∨ taskNumber = 4 ∨ taskNumber = 5 then
        ⟨0, false⟩
      else if taskNumber = 6 then
        match secondArg with
        | some s =>
          match checkForInteger s with
          | none => ⟨1, true⟩
          | some _ => ⟨0, false⟩
        | none => ⟨0, true⟩
      else if taskNumber = 7 ∨ taskNumber = 8 then ⟨0, false⟩
      else if taskNumber = 9 then
        match secondArg with
        | some _ => ⟨0, false⟩
        | none => ⟨0, true⟩
      else if taskNumber = 10 then ⟨0, false⟩
      else ⟨1, true⟩

/-- The rows counted by `get_average_age_active_memerbship`:
`WHERE membershipEndDate > DATE('now')`. -/
def active_membership_rows (db : DB) (today : String) : List MemberRow :=
  db.members.filter fun m => pyStrLt today m.membershipEndDate

/-- The rows counted by `get_average_age_expired_memerbship`:
`WHERE membershipEndDate <= DATE('now')`. -/
def expired_membership_rows (db : DB) (today : String) : List MemberRow :=
  db.members.filter fun m => pyStrLe m.membershipEndDate today

/-- Models `get_average_age_active_memerbship`: AVG(age) over the active rows
(`NULL`, i.e. `none`, over an empty selection). -/
def get_average_age_active_memerbship (db : DB) (today : String) : Option Rat :=
  let l := active_membership_rows db today
  if l.isEmpty then none
  else some (((l.map fun m => m.age).foldl (· + ·) 0 : Int) / (l.length : Rat))

/-- Models `get_average_age_expired_memerbship`: AVG(age) over the expired rows. -/
def get_average_age_expired_memerbship (db : DB) (today : String) : Option Rat :=
  let l := expired_membership_rows db today
  if l.isEmpty then none
  else some (((l.map fun m => m.age).foldl (· + ·) 0 : Int) / (l.length : Rat))

/-! ## Concrete stores used to evaluate the claims -/

/-- An empty store. -/
def emptyDB : DB :=
  { members := [], payments := [], classes := [], attends := [], equipment := []
    instructors := [], gyms := [], plans := []
    nextMemberID := 1, nextPaymentID := 1, nextClassID := 1, nextEquipmentID := 1 }

/-- A store with one class (ID 1) that has one attendee, and no class 99. -/
def exClassDB : DB :=
  { members := [], payments := []
    classes := [⟨1, "Yoga A", "Yoga", 60, 20, 1, 1⟩]
    attends := [⟨5, 1, "2025-01-01"⟩]
    equipment := [], instructors := [1], gyms := [1], plans := [1]
    nextMemberID := 1, nextPaymentID := 1, nextClassID := 2, nextEquipmentID := 1 }

/-- A store with two members whose emails differ. -/
def exMemberDB : DB :=
  { members :=
      [⟨1, "Ann", "a@x.com", 555, "A St", 30, "2024-01-01", "2026-01-01"⟩,
       ⟨2, "Bob", "b@x.com", 556, "B St", 25, "2024-01-01", "2026-01-01"⟩]
    payments := [⟨1, 1, 1, ⟨50, 0⟩, "2024-01-01"⟩]
    classes := [], attends := [], equipment := []
    instructors := [1], gyms := [1], plans := [1]
    nextMemberID := 3, nextPaymentID := 2, nextClassID := 1, nextEquipmentID := 1 }

/-! ## Helper lemmas -/

/-- A list has a member satisfying `p` iff the count of such members is
positive (relates `SELECT 1 ... fetchone` to `SELECT COUNT(*) ... > 0`). -/
lemma any_eq_decide_countP {α : Type} (l : List α) (p : α → Bool) :
    l.any p = decide (0 < l.countP p) := by
  by_cases h : l.any p = true
  · rw [h]
    rw [List.any_eq_true] at h
    obtain ⟨a, ha, hpa⟩ := h
    symm
    rw [decide_eq_true_eq, List.countP_pos]
    exact ⟨a, ha, hpa⟩
  · rw [Bool.not_eq_true] at h
    rw [h]
    symm
    rw [decide_eq_false_iff_not, List.countP_pos]
    intro ⟨a, ha, hpa⟩
    exact absurd (List.any_eq_true.mpr ⟨a, ha, hpa⟩) (by simp [h])

/-- After filtering out every element satisfying `p`, none satisfies `p`. -/
lemma any_filter_not {α : Type} (l : List α) (p : α → Bool) :
    (l.filter fun a => !p a).any p = false := by
  rw [List.any_eq_false]
  intro a ha
  rw [List.mem_filter] at ha
  simpa using ha.2

/-- The strict and non-strict lexicographic string orders are complementary,
as they are for Python `str` and SQLite TEXT comparison. -/
lemma strLtL_eq_not_strLeL : ∀ x y : List Char, strLtL x y = !strLeL y x := by
  intro x
  induction x with
  | nil => intro y; cases y <;> rfl
  | cons a as ih =>
    intro y
    cases y with
    | nil => rfl
    | cons b bs =>
      simp only [strLtL, strLeL]
      rcases lt_trichotomy a b with h | h | h
      · simp [h, lt_asymm h]
      · simp [h, lt_irrefl, ih bs]
      · simp [h, lt_asymm h]

/-- Lexicographic `<=` is reflexive. -/
lemma strLeL_refl : ∀ l : List Char, strLeL l l = true := by
  intro l
  induction l with
  | nil => rfl
  | cons a as ih => simp only [strLeL, lt_irrefl, if_false, ih]

/-! ## C3 — insert operations and the returned surrogate key -/

/-- C3 counterexample: on a store whose next payment rowid is 2, a successful
`add_payment` inserts the row with key 2 but returns the boolean `True`, not
the newly assigned surrogate integer key. -/
theorem C3_counterexample :
    (add_payment exMemberDB true 1 1 ⟨25, 0⟩ "2025-02-01").2 = PyVal.pyBool true
    ∧ (add_payment exMemberDB true 1 1 ⟨25, 0⟩ "2025-02-01").1.payments =
        exMemberDB.payments ++ [⟨2, 1, 1, ⟨25, 0⟩, "2025-02-01"⟩]
    ∧ (add_payment exMemberDB true 1 1 ⟨25, 0⟩ "2025-02-01").2 ≠ PyVal.pyInt 2 := by
  refine ⟨rfl, rfl, ?_⟩
  decide

/-- C3 amended: every successful member, class and equipment insert returns
the newly assigned surrogate key of the row it appends, while a successful
payment insert appends the row under the next payment key but returns only
the boolean `True`. -/
theorem C3_amended_insert_returns (db : DB) (name email : String) (phone : Int)
    (address : String) (age : Int) (sd ed : String)
    (className classType : String) (duration capacity instructorID gymID : Int)
    (eqName eqType : String) (qty egym : Int)
    (pmid ppid : Int) (amt : PyFloat) (pdate : String) :
    (add_member db true name email phone address age sd ed).2 = PyVal.pyInt db.nextMemberID
    ∧ (add_member db true name email phone address age sd ed).1.members =
        db.members ++ [⟨db.nextMemberID, name, email, phone, address, age, sd, ed⟩]
    ∧ (add_class db true className classType duration capacity instructorID gymID).2 =
        PyVal.pyInt db.nextClassID
    ∧ (add_class db true className classType duration capacity instructorID gymID).1.classes =
        db.classes ++ [⟨db.nextClassID, className, classType, duration, capacity,
          instructorID, gymID⟩]
    ∧ (add_equipment db true eqName eqType qty egym).2 = PyVal.pyInt db.nextEquipmentID
    ∧ (add_equipment db true eqName eqType qty egym).1.equipment =
        db.equipment ++ [⟨db.nextEquipmentID, eqName, eqType, qty, egym⟩]
    ∧ (add_payment db true pmid ppid amt pdate).2 = PyVal.pyBool true
    ∧ (add_payment db true pmid ppid amt pdate).1.payments =
        db.payments ++ [⟨db.nextPaymentID, pmid, ppid, amt, pdate⟩] :=
  ⟨rfl, rfl, rfl, rfl, rfl, rfl, rfl, rfl⟩

/-! ## C5 — write failure leaves the store unchanged, success commits -/

/-- C5: when the store rejects a write statement (`ok = false`), the insert,
update and delete repository functions return the prior store unchanged
together with a `False` failure signal, with no retry; when the store accepts
it (`ok = true`), the returned (committed) store contains the write and the
call reports success. -/
theorem C5_write_failure_atomicity (db : DB) (name email : String) (phone : Int)
    (address : String) (age : Int) (sd ed : String) (mid : Int) :
    add_member db false name email phone address age sd ed = (db, PyVal.pyBool false)
    ∧ update_member db false mid name email phone address age sd ed = (db, false)
    ∧ delete_member db false mid = (db, false)
    ∧ add_payment db false mid 1 ⟨0, 0⟩ sd = (db, PyVal.pyBool false)
    ∧ (add_member db true name email phone address age sd ed).1.members =
        db.members ++ [⟨db.nextMemberID, name, email, phone, address, age, sd, ed⟩]
    ∧ (update_member db true mid name email phone address age sd ed).2 = true
    ∧ (update_member db true mid name email phone address age sd ed).1.members =
        db.members.map fun m =>
          if m.memberID = mid then
            ⟨m.memberID, name, email, phone, address, age, sd, ed⟩
          else m :=
  ⟨rfl, rfl, rfl, rfl, rfl, rfl, rfl⟩

/-! ## C8 — create/exists/delete round trip -/

/-- C8: creating a member returns the store's next surrogate key; checking
existence of that key on the resulting store yields true; deleting that key
and checking again yields false. -/
theorem C8_create_exists_delete_not_exists (db : DB) (name email : String)
    (phone : Int) (address : String) (age : Int) (sd ed : String) :
    (add_member db true name email phone address age sd ed).2 = PyVal.pyInt db.nextMemberID
    ∧ member_exists (add_member db true name email phone address age sd ed).1
        db.nextMemberID = true
    ∧ member_exists
        (delete_member (add_member db true name email phone address age sd ed).1
          true db.nextMemberID).1 db.nextMemberID = false := by
  refine ⟨rfl, ?_, ?_⟩
  · simp [add_member, member_exists, List.any_append]
  · simp only [delete_member, if_true, member_exists]
    exact any_filter_not _ _

/-! ## C9 — delete return-value asymmetry -/

/-- C9: `delete_member` reports success without inspecting the affected row
count, so it returns `True` even for a member ID absent from the store,
whereas `delete_class` returns `True` exactly when a class row with the given
ID existed (affected row count positive). -/
theorem C9_delete_return_asymmetry (db : DB) (mid cid : Int)
    (h : member_exists db mid = false) :
    (delete_member db true mid).2 = true
    ∧ ((delete_class db true cid).2 = true ↔ class_exists db cid = true) := by
  refine ⟨rfl, ?_⟩
  have hc : class_exists db cid =
      decide (0 < db.classes.countP fun c => decide (c.classID = cid)) :=
    any_eq_decide_countP _ _
  constructor
  · intro hd
    rw [hc]
    exact hd
  · intro hd
    rw [hc] at hd
    exact hd

/-- C9 witness: member ID 77 is absent from the two-member store, and there
`delete_member` returns `True` while `delete_class` on the class-free store
returns `False`. -/
theorem C9_witness :
    (delete_member exMemberDB true 77).2 = true
    ∧ ((delete_class exMemberDB true 5).2 = true ↔ class_exists exMemberDB 5 = true) :=
  C9_delete_return_asymmetry exMemberDB 77 5 (by decide)

/-! ## C10 — unguarded integer conversion in the Add Class form -/

/-- C10: submitting the Add Class form with the non-numeric Duration "sixty"
makes the handler raise an uncaught `ValueError` (modelled as `none`) before
any guarded validation can surface a message, while the same submission with
a numeric Duration runs the guarded checks and succeeds. -/
theorem C10_add_class_uncaught_valueerror :
    gui_add_class exClassDB true "Morning Flow" "Yoga" "sixty" "10" "1" "1" = none
    ∧ (gui_add_class exClassDB true "Morning Flow" "Yoga" "60" "10" "1" "1").isSome = true := by
  constructor
  · rfl
  · decide

/-! ## C7 — average-age report partition -/

/-- C7: for any member in the store and any value of `DATE('now')`, the two
average-age report queries classify the member into exactly one of the
active (`endDate > today`) and expired (`endDate <= today`) selections, and
a member whose end date equals today lands in the expired selection. -/
theorem C7_average_age_partition (db : DB) (today : String) (m : MemberRow)
    (hm : m ∈ db.members) :
    (m ∈ active_membership_rows db today ↔ m ∉ expired_membership_rows db today)
    ∧ (m.membershipEndDate = today →
        m ∈ expired_membership_rows db today ∧ m ∉ active_membership_rows db today) := by
  have hact : m ∈ active_membership_rows db today ↔
      pyStrLt today m.membershipEndDate = true := by
    simp [active_membership_rows, List.mem_filter, hm]
  have hexp : m ∈ expired_membership_rows db today ↔
      pyStrLe m.membershipEndDate today = true := by
    simp [expired_membership_rows, List.mem_filter, hm]
  have hcompl : pyStrLt today m.membershipEndDate =
      !pyStrLe m.membershipEndDate today :=
    strLtL_eq_not_strLeL _ _
  constructor
  · rw [hact, hexp, hcompl]
    cases hle : pyStrLe m.membershipEndDate today <;> simp [hle]
  · intro heq
    have hle : pyStrLe m.membershipEndDate today = true := by
      rw [heq]
      exact strLeL_refl _
    constructor
    · rw [hexp]; exact hle
    · rw [hact, hcompl, hle]
      decide

/-- C7 witness: on the two-member store with today equal to member 1's end
date `2026-01-01`, member 1 is classified as expired and not active, and is
in exactly one of the two selections. -/
theorem C7_witness :
    ((⟨1, "Ann", "a@x.com", 555, "A St", 30, "2024-01-01", "2026-01-01"⟩ : MemberRow)
        ∈ active_membership_rows exMemberDB "2026-01-01" ↔
      (⟨1, "Ann", "a@x.com", 555, "A St", 30, "2024-01-01", "2026-01-01"⟩ : MemberRow)
        ∉ expired_membership_rows exMemberDB "2026-01-01")
    ∧ ((⟨1, "Ann", "a@x.com", 555, "A St", 30, "2024-01-01", "2026-01-01"⟩ : MemberRow).membershipEndDate
          = "2026-01-01" →
        (⟨1, "Ann", "a@x.com", 555, "A St", 30, "2024-01-01", "2026-01-01"⟩ : MemberRow)
          ∈ expired_membership_rows exMemberDB "2026-01-01"
        ∧ (⟨1, "Ann", "a@x.com", 555, "A St", 30, "2024-01-01", "2026-01-01"⟩ : MemberRow)
          ∉ active_membership_rows exMemberDB "2026-01-01") :=
  C7_average_age_partition exMemberDB "2026-01-01" _ (by decide)

/-! ## C6 — duplicate email refuses member creation -/

/-- C6: submitting the Add New Member form with an email that already exists
among members — all fields otherwise passing the earlier checks — aborts with
the duplicate-email error and performs no insert: the store is returned
unchanged. -/
theorem C6_duplicate_email_no_insert (db : DB) (okM okP : Bool)
    (name email phone_s address age_s sd ed plan_s amt_s pd : String)
    (phone age plan : Int) (amt : PyFloat)
    (hph : is_integer phone_s = some phone)
    (hag : is_integer age_s = some age)
    (hpl : is_integer plan_s = some plan)
    (ham : is_float amt_s = some amt)
    (h15 : ¬ age < 15)
    (hdate : pyStrLe ed sd = false)
    (hdup : check_email_exists db email = true) :
    gui_add_member db okM okP name email phone_s address age_s sd ed plan_s amt_s pd
      = (db, AddMemberOutcome.duplicateEmail) := by
  simp [gui_add_member, hph, hag, hpl, ham, h15, hdate, hdup]

/-- C6 witness: on the two-member store, adding "Czar" with member 1's email
`a@x.com` and otherwise valid fields yields the duplicate-email abort with
the store unchanged. -/
theorem C6_witness :
    gui_add_member exMemberDB true true "Czar" "a@x.com" "557" "C St" "20"
        "2024-01-01" "2025-01-01" "1" "50" "2024-01-01"
      = (exMemberDB, AddMemberOutcome.duplicateEmail) :=
  C6_duplicate_email_no_insert exMemberDB true true "Czar" "a@x.com" "557" "C St"
    "20" "2024-01-01" "2025-01-01" "1" "50" "2024-01-01" 557 20 1 ⟨50, 0⟩
    (by decide) (by decide) (by decide) (by decide) (by decide) (by decide) (by decide)

/-! ## C4 — command-line dispatcher argument handling -/

/-- C4 counterexample: invoking the dispatcher with task 6 or 9 and no second
argument prints a diagnostic but terminates with exit status 0, not non-zero;
and tasks 3 and 4 (two of the four tasks the claim says need a second
argument) run without one, with no diagnostic at all. -/
theorem C4_counterexample :
    cli_main ["6"] = ⟨0, true⟩ ∧ cli_main ["9"] = ⟨0, true⟩
    ∧ cli_main ["3"] = ⟨0, false⟩ ∧ cli_main ["4"] = ⟨0, false⟩ :=
  ⟨rfl, rfl, rfl, rfl⟩

/-- C4 amended: a missing first argument, a non-digit first argument, or a
task number outside 1–10 terminates with exit status 1 and a diagnostic; a
missing second argument for tasks 6 and 9 prints a diagnostic but the
process still exits with status 0 (tasks 3 and 4 are stubs that require no
second argument). -/
theorem C4_amended_dispatcher (a1 : String) (rest : List String) :
    cli_main [] = ⟨1, true⟩
    ∧ (checkForInteger a1 = none → cli_main (a1 :: rest) = ⟨1, true⟩)
    ∧ (∀ n, checkForInteger a1 = some n → n = 0 ∨ 11 ≤ n →
        cli_main (a1 :: rest) = ⟨1, true⟩)
    ∧ (∀ n, checkForInteger a1 = some n → n = 6 ∨ n = 9 →
        cli_main [a1] = ⟨0, true⟩) := by
  refine ⟨rfl, ?_, ?_, ?_⟩
  · intro h
    simp [cli_main, h]
  · intro n hn hout
    have h1 : ¬(n = 1 ∨ n = 2 ∨ n = 3 ∨ n = 4 ∨ n = 5) := by
      rcases hout with h | h <;> omega
    have h6 : ¬ n = 6 := by rcases hout with h | h <;> omega
    have h78 : ¬(n = 7 ∨ n = 8) := by rcases hout with h | h <;> omega
    have h9 : ¬ n = 9 := by rcases hout with h | h <;> omega
    have h10 : ¬ n = 10 := by rcases hout with h | h <;> omega
    simp only [cli_main, hn]
    rw [if_neg h1, if_neg h6, if_neg h78, if_neg h9, if_neg h10]
  · intro n hn hcase
    rcases hcase with h | h
    · subst h
      simp [cli_main, hn]
    · subst h
      simp [cli_main, hn]

/-- C4 witness: a non-digit selector and the out-of-range selector 11 exit
with status 1 and a diagnostic, while task 6 without its instructor ID exits
with status 0 despite printing a diagnostic. -/
theorem C4_witness :
    cli_main ["abc"] = ⟨1, true⟩ ∧ cli_main ["11"] = ⟨1, true⟩
    ∧ cli_main ["6"] = ⟨0, true⟩ :=
  ⟨(C4_amended_dispatcher "abc" []).2.1 (by decide),
   (C4_amended_dispatcher "11" []).2.2.1 11 (by decide) (by decide),
   (C4_amended_dispatcher "6" []).2.2.2 6 (by decide) (Or.inl rfl)⟩

/-! ## C1 — deleting a class with attendees -/

/-- C1 counterexample: on the store with class 1 holding one attendee and no
class 99, the Delete Class handler accepts target class ID 99, "moves" the
attendee to the nonexistent class 99 and deletes class 1 — deletion is not
refused even though the supplied target class does not exist in the store. -/
theorem C1_counterexample :
    (gui_delete_class exClassDB true "1" (some "99")).2 = DeleteClassOutcome.deleted
    ∧ class_exists exClassDB 99 = false
    ∧ (gui_delete_class exClassDB true "1" (some "99")).1.attends =
        [⟨5, 99, "2025-01-01"⟩]
    ∧ (gui_delete_class exClassDB true "1" (some "99")).1.classes = [] :=
  ⟨rfl, rfl, rfl, rfl⟩

/-- C1 amended: for a class that exists and has attendees, the Delete Class
handler deletes the class row exactly when a target class ID string is
supplied that parses as an integer (no existence check on the target is
performed); the delete happens only after `move_members` reports a positive
affected row count, and it removes the class row; with no target supplied the
operation is refused and the store is unchanged. -/
theorem C1_amended_delete_guard (db : DB) (id_s : String) (cid : Int)
    (new_id : Option String)
    (hid : python_int id_s = some cid)
    (hex : class_exists db cid = true)
    (hmem : class_has_members db cid = true) :
    ((gui_delete_class db true id_s new_id).2 = DeleteClassOutcome.deleted ↔
      ∃ s nid, new_id = some s ∧ python_int s = some nid)
    ∧ ((gui_delete_class db true id_s new_id).2 = DeleteClassOutcome.deleted →
        class_exists (gui_delete_class db true id_s new_id).1 cid = false)
    ∧ (new_id = none →
        gui_delete_class db true id_s new_id = (db, DeleteClassOutcome.refused)) := by
  have hred : gui_delete_class db true id_s new_id =
      (match new_id with
       | none => (db, DeleteClassOutcome.refused)
       | some s =>
         if s = "" then (db, DeleteClassOutcome.refused)
         else
           match python_int s with
           | none => (db, DeleteClassOutcome.guiError)
           | some new_class_id =>
             let r1 := move_members db true cid new_class_id
             if r1.2 then
               let r2 := delete_class r1.1 true cid
               if r2.2 then (r2.1, DeleteClassOutcome.deleted)
               else (r2.1, DeleteClassOutcome.deleteFailed)
             else (r1.1, DeleteClassOutcome.refused)) := by
    simp only [gui_delete_class, hid, hex, hmem, Bool.not_true, Bool.false_eq_true,
      if_false, if_true]
  rw [hred]
  cases new_id with
  | none =>
    refine ⟨by simp, by intro h; simp at h, fun _ => rfl⟩
  | some s =>
    by_cases hs : s = ""
    · subst hs
      have hpe : python_int "" = none := rfl
      refine ⟨?_, ?_, by intro h; cases h⟩
      · simp [hpe]
      · intro h; simp at h
    · cases hp : python_int s with
      | none =>
        refine ⟨?_, ?_, by intro h; cases h⟩
        · simp [hs, hp]
        · intro h; simp [hs, hp] at h
      | some nid =>
        have hm2 : (move_members db true cid nid).2 = true := hmem
        have hd2 : (delete_class (move_members db true cid nid).1 true cid).2 = true := by
          have he : (delete_class (move_members db true cid nid).1 true cid).2 =
              decide (0 < db.classes.countP fun c => decide (c.classID = cid)) := rfl
          rw [he, ← any_eq_decide_countP]
          exact hex
        have hnot : class_exists
            (delete_class (move_members db true cid nid).1 true cid).1 cid = false :=
          any_filter_not _ _
        refine ⟨?_, ?_, by intro h; cases h⟩
        · constructor
          · intro _
            exact ⟨s, nid, rfl, hp⟩
          · intro _
            simp [hs, hp, hm2, hd2]
        · intro _
          simpa [hs, hp, hm2, hd2] using hnot

/-- C1 witness: the amended guard evaluated on the one-class store with
class 1 attended, target ID string "99" supplied. -/
theorem C1_witness :
    (((gui_delete_class exClassDB true "1" (some "99")).2 = DeleteClassOutcome.deleted ↔
        ∃ s nid, (some "99" : Option String) = some s ∧ python_int s = some nid)
      ∧ ((gui_delete_class exClassDB true "1" (some "99")).2 = DeleteClassOutcome.deleted →
          class_exists (gui_delete_class exClassDB true "1" (some "99")).1 1 = false)
      ∧ ((some "99" : Option String) = none →
          gui_delete_class exClassDB true "1" (some "99")
            = (exClassDB, DeleteClassOutcome.refused))) :=
  C1_amended_delete_guard exClassDB "1" 1 (some "99") (by decide) (by decide) (by decide)

/-! ## C2 — validation before member mutations -/

/-- C2 counterexample: the Update Member handler applies an update whose end
date `2025-01-01` is not strictly after its start date `2025-06-01` and whose
email `a@x.com` already belongs to member 1 — neither the date-ordering rule
nor the email-uniqueness rule is evaluated before `file.update_member` runs,
and the row is rewritten. -/
theorem C2_counterexample :
    (gui_update_member exMemberDB true "2" "Bob" "a@x.com" "556" "B St" "25"
        "2025-06-01" "2025-01-01").2 = UpdateMemberOutcome.updated
    ∧ pyStrLe "2025-01-01" "2025-06-01" = true
    ∧ check_email_exists exMemberDB "a@x.com" = true
    ∧ (gui_update_member exMemberDB true "2" "Bob" "a@x.com" "556" "B St" "25"
        "2025-06-01" "2025-01-01").1.members =
        [⟨1, "Ann", "a@x.com", 555, "A St", 30, "2024-01-01", "2026-01-01"⟩,
         ⟨2, "Bob", "a@x.com", 556, "B St", 25, "2025-06-01", "2025-01-01"⟩] :=
  ⟨rfl, rfl, rfl, rfl⟩

/-- C2 amended: the Add New Member handler evaluates every applicable rule
(parses, age ≥ 15, end date strictly after start date, email uniqueness, plan
existence) before calling `file.add_member`, the first failing rule aborting
with the store untouched; the Update Member handler evaluates only the
member-ID parse and existence, the phone/age parses and the age rule before
calling `file.update_member` — date ordering and email uniqueness are not
checked on update. -/
theorem C2_amended_validation (db : DB) (okM okP ok : Bool)
    (name email phone_s address age_s sd ed plan_s amt_s pd : String)
    (id2 name2 email2 phone2_s address2 age2_s sd2 ed2 : String) :
    ((gui_add_member db okM okP name email phone_s address age_s sd ed plan_s amt_s pd).2
          = AddMemberOutcome.added
      ∨ (gui_add_member db okM okP name email phone_s address age_s sd ed plan_s amt_s pd).2
          = AddMemberOutcome.paymentFailed
      ∨ (gui_add_member db okM okP name email phone_s address age_s sd ed plan_s amt_s pd).2
          = AddMemberOutcome.addFailed →
      (∃ phone, is_integer phone_s = some phone)
      ∧ (∃ age, is_integer age_s = some age ∧ 15 ≤ age)
      ∧ pyStrLe ed sd = false
      ∧ check_email_exists db email = false
      ∧ (∃ plan, is_integer plan_s = some plan ∧ membership_plan_exists db plan = true)
      ∧ (∃ amt, is_float amt_s = some amt))
    ∧ ((gui_update_member db ok id2 name2 email2 phone2_s address2 age2_s sd2 ed2).2
          = UpdateMemberOutcome.updated
      ∨ (gui_update_member db ok id2 name2 email2 phone2_s address2 age2_s sd2 ed2).2
          = UpdateMemberOutcome.updateFailed →
      (∃ mid, python_int id2 = some mid ∧ member_exists db mid = true)
      ∧ (∃ phone, is_integer phone2_s = some phone)
      ∧ (∃ age, is_integer age2_s = some age ∧ 15 ≤ age)) := by
  constructor
  · intro h
    cases hph : is_integer phone_s with
    | none => simp [gui_add_member, hph] at h
    | some phone =>
    cases hag : is_integer age_s with
    | none => simp [gui_add_member, hph, hag] at h
    | some age =>
    cases hpl : is_integer plan_s with
    | none => simp [gui_add_member, hph, hag, hpl] at h
    | some plan =>
    cases ham : is_float amt_s with
    | none => simp [gui_add_member, hph, hag, hpl, ham] at h
    | some amt =>
    by_cases h15 : age < 15
    · simp [gui_add_member, hph, hag, hpl, ham, h15] at h
    · by_cases hdate : pyStrLe ed sd = true
      · simp [gui_add_member, hph, hag, hpl, ham, h15, hdate] at h
      · by_cases hdup : check_email_exists db email = true
        · simp [gui_add_member, hph, hag, hpl, ham, h15, hdate, hdup] at h
        · by_cases hplan : membership_plan_exists db plan = true
          · exact ⟨⟨phone, rfl⟩, ⟨age, rfl, not_lt.mp h15⟩,
              eq_false_of_ne_true hdate,
              eq_false_of_ne_true hdup, ⟨plan, rfl, hplan⟩, ⟨amt, rfl⟩⟩
          · simp [gui_add_member, hph, hag, hpl, ham, h15, hdate, hdup, hplan] at h
  · intro h
    cases hid : python_int id2 with
    | none => simp [gui_update_member, hid] at h
    | some mid =>
    by_cases hmx : member_exists db mid = true
    · cases hph : is_integer phone2_s with
      | none => simp [gui_update_member, hid, hmx, hph] at h
      | some phone =>
      cases hag : is_integer age2_s with
      | none => simp [gui_update_member, hid, hmx, hph, hag] at h
      | some age =>
      by_cases h15 : age < 15
      · simp [gui_update_member, hid, hmx, hph, hag, h15] at h
      · exact ⟨⟨mid, rfl, hmx⟩, ⟨phone, rfl⟩, ⟨age, rfl, not_lt.mp h15⟩⟩
    · simp [gui_update_member, hid, eq_false_of_ne_true hmx] at h

/-- C2 amended witness: both handlers evaluated on the two-member store at
inputs that reach the repository calls. -/
theorem C2_amended_witness :
    ((∃ phone, is_integer "557" = some phone)
      ∧ (∃ age, is_integer "20" = some age ∧ 15 ≤ age)
      ∧ pyStrLe "2025-01-01" "2024-01-01" = false
      ∧ check_email_exists exMemberDB "c@x.com" = false
      ∧ (∃ plan, is_integer "1" = some plan ∧ membership_plan_exists exMemberDB plan = true)
      ∧ (∃ amt, is_float "50" = some amt))
    ∧ ((∃ mid, python_int "2" = some mid ∧ member_exists exMemberDB mid = true)
      ∧ (∃ phone, is_integer "556" = some phone)
      ∧ (∃ age, is_integer "25" = some age ∧ 15 ≤ age)) :=
  ⟨(C2_amended_validation exMemberDB true true true "Czar" "c@x.com" "557" "C St" "20"
      "2024-01-01" "2025-01-01" "1" "50" "2024-01-01"
      "2" "Bob" "b@x.com" "556" "B St" "25" "2024-01-01" "2026-01-01").1
      (Or.inl (by decide)),
   (C2_amended_validation exMemberDB true true true "Czar" "c@x.com" "557" "C St" "20"
      "2024-01-01" "2025-01-01" "1" "50" "2024-01-01"
      "2" "Bob" "b@x.com" "556" "B St" "25" "2024-01-01" "2026-01-01").2
      (Or.inl (by decide))⟩
